import Mathlib

/-!
Shallow embedding of the credential-lifecycle subsystem of a quiz backend
(src/index.js): the password policy validator, the login handler with its
failed-attempt lockout logic, the password-change handler, and the
admin-role authorization gate.

The bcrypt hasher is opaque one-way hashing; it is modelled by two
parameters threaded through the definitions:
 * `compare : String → String → Bool` for `bcrypt.compare(plaintext, digest)`
   (deterministic: the same call made twice yields the same result), and
 * `hashFn : String → String` for `bcrypt.hash(plaintext, 10)` on the one
   concrete salt a given request draws.
Timestamps (`Date.now()` milliseconds) are `Nat`; the `Date` stored in
`lastFailedLogin` is `Option Nat`, `none` for the schema default `null`.
-/

namespace QuizApp

/-- Account record persisted per user: the `userSchema` fields
(`username`, `password` = current bcrypt digest, `historyPasswords`,
`failedLoginAttempts`, `lastFailedLogin`). -/
structure UserRec where
  username : String
  password : String
  historyPasswords : List String
  failedLoginAttempts : Nat
  lastFailedLogin : Option Nat
  deriving Repr, DecidableEq

/-- A freshly registered account: `new User({ username, password: hashedPassword })`
with the schema defaults `historyPasswords = []`, `failedLoginAttempts = 0`,
`lastFailedLogin = null`. -/
def newUser (username hashed : String) : UserRec :=
  ⟨username, hashed, [], 0, none⟩

/-- JWT payload as signed by the login route: `jwt.sign({ username }, …)`.
The `role` field is optional because `checkAdminRole` reads `req.user.role`,
which may be absent from a verified payload. -/
structure TokenPayload where
  username : String
  role : Option String
  deriving Repr, DecidableEq

/-- Observable outcome of the login route: 400, 401, 403, or 200 with a
signed token over the given payload. -/
inductive LoginResult where
  | badRequest
  | unauthorized
  | forbidden
  | token (payload : TokenPayload)
  deriving Repr, DecidableEq

/-- `password.toLowerCase().includes(username.toLowerCase())` needs a
substring test; `leadsList n l` holds when `n` is an initial run of `l`. -/
def leadsList : List Char → List Char → Bool
  | [], _ => true
  | _ :: _, [] => false
  | a :: as, b :: bs => a == b && leadsList as bs

/-- `occursIn needle haystack`: JavaScript `haystack.includes(needle)`. -/
def occursIn (needle : List Char) : List Char → Bool
  | [] => needle.isEmpty
  | b :: bs => leadsList needle (b :: bs) || occursIn needle bs

/-- The fixed special-character class of the policy:
`/[!@#$%^&*(),.?":{}|<>]/`. -/
def specialChars : List Char :=
  ['!', '@', '#', '$', '%', '^', '&', '*', '(', ')', ',', '.', '?',
   '\"', ':', '\x7b', '\x7d', '|', '<', '>']

def lenMsg : String := "Password must be 8-12 characters long."
def digitMsg : String := "Password must contain at least one number."
def upperMsg : String := "Password must contain at least one uppercase letter."
def lowerMsg : String := "Password must contain at least one lowercase letter."
def specialMsg : String := "Password must contain at least one special character."
def userMsg : String := "Password must not contain the username."
def reuseMsg : String := "Password must not have been used before."

/-- `validatePassword(password, username, previousPasswords)`: pushes one
message per broken rule onto `errors` and returns the whole list (the
console display loop has no effect on the returned value). -/
def validatePassword (compare : String → String → Bool)
    (password username : String) (previousPasswords : List String) :
    List String :=
  (if password.length < 8 ∨ password.length > 12 then [lenMsg] else []) ++
  (if password.data.any Char.isDigit then [] else [digitMsg]) ++
  (if password.data.any Char.isUpper then [] else [upperMsg]) ++
  (if password.data.any Char.isLower then [] else [lowerMsg]) ++
  (if password.data.any (fun c => specialChars.contains c) then [] else [specialMsg]) ++
  (if occursIn (username.data.map Char.toLower) (password.data.map Char.toLower)
    then [userMsg] else []) ++
  (if previousPasswords.any (fun h => compare password h) then [reuseMsg] else [])

/-- `new Date(user.lastFailedLogin).getTime()`: `null` becomes the epoch 0. -/
def lastMs : Option Nat → Nat
  | none => 0
  | some t => t

/-- The lockout window: `1 * 60 * 1000` milliseconds. -/
def lockoutTime : Nat := 1 * 60 * 1000

/-- The login route `app.post('/api/users/login')`, line by line.
`stored` is the result of `User.findOne({ username })`; the second
component of the result is the record as persisted when the handler
finishes (the handler only calls `user.save()` on the paths that mutate
the record, and an unmutated record is returned unchanged).

Note the control flow of the source: a wrong password is rejected with
401 on the first `bcrypt.compare` *before* the lockout block, so the
lockout block and the second compare run only when the password is
correct. -/
def loginHandler (compare : String → String → Bool) (now : Nat)
    (stored : Option UserRec) (username password : String) :
    LoginResult × Option UserRec :=
  if username = "" ∨ password = "" then
    (.badRequest, stored)
  else
    match stored with
    | none => (.unauthorized, none)
    | some user =>
      if compare password user.password = false then
        (.unauthorized, some user)
      else if user.failedLoginAttempts ≥ 3 ∧
          (now : Int) - (lastMs user.lastFailedLogin : Int) < (lockoutTime : Int) then
        (.forbidden, some user)
      else
        let user1 :=
          if user.failedLoginAttempts ≥ 3 then
            { user with failedLoginAttempts := 0, lastFailedLogin := none }
          else user
        if compare password user1.password = false then
          (.unauthorized, some { user1 with
            failedLoginAttempts := user1.failedLoginAttempts + 1,
            lastFailedLogin := some now })
        else
          (.token ⟨user1.username, none⟩, some { user1 with
            failedLoginAttempts := 0,
            lastFailedLogin := none })

/-- Outcome of the password-change route. -/
inductive ChangeResult where
  | notFound
  | policyViolation (message : String)
  | updated
  deriving Repr, DecidableEq

/-- The password-change route `app.patch('/api/users/:username')` (the
authenticated-identity path): validates the new password against the full
`historyPasswords`, and on success pushes the previously-active digest
onto the history and replaces `password` with the fresh hash. A request
body without a password leaves the record untouched. -/
def changePasswordHandler (compare : String → String → Bool)
    (hashFn : String → String) (username : String)
    (stored : Option UserRec) (password : Option String) :
    ChangeResult × Option UserRec :=
  match stored with
  | none => (.notFound, none)
  | some user =>
    match password with
    | none => (.updated, some user)
    | some pw =>
      let errs := validatePassword compare pw username user.historyPasswords
      if errs = [] then
        (.updated, some { user with
          historyPasswords := user.historyPasswords ++ [user.password],
          password := hashFn pw })
      else
        (.policyViolation (String.intercalate " " errs), some user)

/-- Verdict of the authorization gate. -/
inductive GateResult where
  | forbidden
  | allowed
  deriving Repr, DecidableEq

/-- `checkAdminRole`: `req.user.role !== 'admin'` yields 403, otherwise the
request proceeds. An absent role claim (`role = none`) is not `'admin'`. -/
def checkAdminRole (claims : TokenPayload) : GateResult :=
  if claims.role = some "admin" then .allowed else .forbidden

/-! ### Traces of account-mutating operations (for the record invariant) -/

/-- One public operation touching an existing account record: a login
attempt at a given time with a given password, or a password change. -/
inductive AccountOp where
  | login (now : Nat) (password : String)
  | changePassword (password : String)

/-- The record as persisted after one operation on it. -/
def applyOp (compare : String → String → Bool) (hashFn : String → String)
    (u : UserRec) : AccountOp → UserRec
  | .login now pw =>
    match (loginHandler compare now (some u) u.username pw).2 with
    | some v => v
    | none => u
  | .changePassword pw =>
    match (changePasswordHandler compare hashFn u.username (some u) (some pw)).2 with
    | some v => v
    | none => u

/-- The record after a sequence of operations. -/
def runOps (compare : String → String → Bool) (hashFn : String → String)
    (u : UserRec) (ops : List AccountOp) : UserRec :=
  ops.foldl (applyOp compare hashFn) u

/-- The record invariant of the spec:
`failedAttempts == 0 ⇔ lastFailureTime == null`. -/
def counterInv (u : UserRec) : Prop :=
  u.failedLoginAttempts = 0 ↔ u.lastFailedLogin = none

/-! ### Concrete hasher instances for closed evaluations -/

/-- A concrete deterministic stand-in for `bcrypt.compare`: exactly the
plaintext `"secret"` matches exactly the digest `"hash0"`. -/
def cmpDemo : String → String → Bool :=
  fun p h => p == "secret" && h == "hash0"

/-- A concrete stand-in for `bcrypt.hash` at a fixed salt. -/
def hashDemo : String → String :=
  fun p => String.append p "#digest"

/-- An account in its creation state whose password digest is `"hash0"`. -/
def demoUser : UserRec := ⟨"alice", "hash0", [], 0, none⟩

/-- An account whose failure counter has reached the lockout threshold,
with the most recent failure at time 0. -/
def lockedUser : UserRec := ⟨"alice", "hash0", [], 3, some 0⟩

/-! ### Theorems -/

/-- On a stored record the login handler either leaves the record as read,
or writes back a record whose failure counter is 0: the increment branch
at the bottom of the handler is unreachable, because its guard repeats the
`bcrypt.compare` that the handler has already required to succeed. -/
theorem loginHandler_never_increments
    (compare : String → String → Bool) (now : Nat) (u u' : UserRec)
    (username password : String)
    (h : (loginHandler compare now (some u) username password).2 = some u') :
    u' = u ∨ u'.failedLoginAttempts = 0 := by
  unfold loginHandler at h
  split at h
  · exact Or.inl (Option.some.inj h).symm
  · split at h
    · simp at h
    · rename_i user heq
      injection heq with heq
      subst heq
      split at h
      · exact Or.inl (Option.some.inj h).symm
      · split at h
        · exact Or.inl (Option.some.inj h).symm
        · dsimp only [] at h
          split at h
          · exact Or.inr (congrArg UserRec.failedLoginAttempts
              (Option.some.inj h).symm)
          · exact Or.inr (congrArg UserRec.failedLoginAttempts
              (Option.some.inj h).symm)

/-- C1. The claim says a login attempt on a locked account within the
60-second window is rejected with `Forbidden` regardless of password
correctness. The code rejects a wrong password with 401 `Unauthorized`
before it ever reaches the lockout check: on an account with
`failedLoginAttempts = 3` and `lastFailedLogin = 0`, an attempt at time
1000 (well inside the window) with a non-matching password returns
`Unauthorized`, not `Forbidden` — only a correct password sees the 403. -/
theorem locked_attempt_wrong_password_is_unauthorized :
    loginHandler cmpDemo 1000 (some lockedUser) "alice" "wrong!" =
      (.unauthorized, some lockedUser) ∧
    (loginHandler cmpDemo 1000 (some lockedUser) "alice" "wrong!").1 ≠
      .forbidden ∧
    loginHandler cmpDemo 1000 (some lockedUser) "alice" "secret" =
      (.forbidden, some lockedUser) := by
  decide

/-- C2. The claim says a failed hash verification increments
`failedLoginAttempts`, sets `lastFailedLogin`, and persists the record.
The code returns 401 on the first `bcrypt.compare` without touching the
record: an attempt with a wrong password against a fresh account leaves
the counter at 0 and the timestamp `null`. -/
theorem failed_verify_does_not_increment :
    loginHandler cmpDemo 1000 (some demoUser) "alice" "wrong!" =
      (.unauthorized, some demoUser) ∧
    demoUser.failedLoginAttempts = 0 ∧
    demoUser.lastFailedLogin = none := by
  decide

/-- C3. The claim says that on an account with `failedLoginAttempts ≥ 3`
whose window has expired, every attempt resets the counter and timestamp
before the password comparison. With a wrong password the code returns
401 before the lockout block, so no reset happens: at time 200000 (window
long expired) the record keeps `failedLoginAttempts = 3` and
`lastFailedLogin = 0`. The reset runs only when the password is correct. -/
theorem expired_lockout_not_reset_on_wrong_password :
    loginHandler cmpDemo 200000 (some lockedUser) "alice" "wrong!" =
      (.unauthorized, some lockedUser) ∧
    lockedUser.failedLoginAttempts = 3 ∧
    loginHandler cmpDemo 200000 (some lockedUser) "alice" "secret" =
      (.token ⟨"alice", none⟩, some ⟨"alice", "hash0", [], 0, none⟩) := by
  decide

/-- C4. `validatePassword` reports every broken rule independently: the
returned list is empty exactly when all seven rules hold at once, and on
the spec's examples it returns no violation for `"Abc123!x"` against
identity `"bob"` with empty history, and exactly the four violations for
length, digit, uppercase and special character for `"abc"` (showing it
does not stop at the first broken rule). -/
theorem validatePassword_complete_and_examples :
    (∀ (compare : String → String → Bool) (password username : String)
        (previousPasswords : List String),
      validatePassword compare password username previousPasswords = [] ↔
        ((8 ≤ password.length ∧ password.length ≤ 12) ∧
          password.data.any Char.isDigit = true ∧
          password.data.any Char.isUpper = true ∧
          password.data.any Char.isLower = true ∧
          password.data.any (fun c => specialChars.contains c) = true ∧
          occursIn (username.data.map Char.toLower)
            (password.data.map Char.toLower) = false ∧
          previousPasswords.any (fun d => compare password d) = false)) ∧
    (∀ compare, validatePassword compare "Abc123!x" "bob" [] = []) ∧
    (∀ compare, validatePassword compare "abc" "bob" [] =
      [lenMsg, digitMsg, upperMsg, specialMsg]) := by
  refine ⟨?_, fun _ => rfl, fun _ => rfl⟩
  intro compare password username previousPasswords
  have hpos : ∀ (c : Prop) (inst : Decidable c) (m : String),
      (if c then [m] else []) = ([] : List String) ↔ ¬ c := by
    intro c inst m
    split <;> simp_all
  have hneg : ∀ (c : Prop) (inst : Decidable c) (m : String),
      (if c then [] else [m]) = ([] : List String) ↔ c := by
    intro c inst m
    split <;> simp_all
  unfold validatePassword
  simp only [List.append_eq_nil, hpos, hneg, not_or, not_lt,
    Bool.not_eq_true]
  tauto

/-- C7. Whenever the candidate matches (via the hasher's comparison) at
least one digest of the supplied history, the reuse violation is among
the violations `validatePassword` returns — whatever the other rules
say. -/
theorem validatePassword_flags_reuse
    (compare : String → String → Bool) (password username : String)
    (previousPasswords : List String)
    (h : previousPasswords.any (fun d => compare password d) = true) :
    reuseMsg ∈ validatePassword compare password username previousPasswords := by
  simp [validatePassword, h]

/-- Witness for C7: a comparison that accepts everything together with a
one-entry history makes `validatePassword` report reuse on a password
satisfying every other rule. -/
theorem validatePassword_flags_reuse_witness :
    reuseMsg ∈ validatePassword (fun _ _ => true) "Abc123!x" "bob" ["d1"] :=
  validatePassword_flags_reuse (fun _ _ => true) "Abc123!x" "bob" ["d1"]
    (by decide)

/-- C8. The admin gate admits a verified payload exactly when its role
claim is `'admin'`; a payload without a role claim is rejected with
`Forbidden`, never treated as a wildcard. -/
theorem checkAdminRole_admits_iff_admin :
    (∀ claims : TokenPayload,
      checkAdminRole claims = .allowed ↔ claims.role = some "admin") ∧
    (∀ username, checkAdminRole ⟨username, none⟩ = .forbidden) := by
  constructor
  · intro claims
    unfold checkAdminRole
    split <;> simp_all
  · intro username
    rfl

/-- Whatever record the login handler persists for an existing account
satisfies the counter/timestamp invariant, provided the record read did. -/
theorem loginHandler_preserves_counterInv
    (compare : String → String → Bool) (now : Nat) (u u' : UserRec)
    (username password : String) (hinv : counterInv u)
    (h : (loginHandler compare now (some u) username password).2 = some u') :
    counterInv u' := by
  unfold loginHandler at h
  split at h
  · rw [← Option.some.inj h]
    exact hinv
  · split at h
    · simp at h
    · rename_i user heq
      injection heq with heq
      subst heq
      split at h
      · rw [← Option.some.inj h]
        exact hinv
      · split at h
        · rw [← Option.some.inj h]
          exact hinv
        · dsimp only [] at h
          split at h
          · rw [← Option.some.inj h]
            exact ⟨fun _ => rfl, fun _ => rfl⟩
          · rw [← Option.some.inj h]
            exact ⟨fun _ => rfl, fun _ => rfl⟩

/-- Whatever record the password-change handler persists for an existing
account satisfies the counter/timestamp invariant, provided the record
read did: the route never touches `failedLoginAttempts` or
`lastFailedLogin`. -/
theorem changePasswordHandler_preserves_counterInv
    (compare : String → String → Bool) (hashFn : String → String)
    (username : String) (u u' : UserRec) (password : Option String)
    (hinv : counterInv u)
    (h : (changePasswordHandler compare hashFn username (some u) password).2 =
      some u') :
    counterInv u' := by
  unfold changePasswordHandler at h
  rcases password with _ | pw
  · rw [← Option.some.inj h]
    exact hinv
  · dsimp only [] at h
    split at h
    · rw [← Option.some.inj h]
      exact hinv
    · rw [← Option.some.inj h]
      exact hinv

/-- One public account operation preserves the counter/timestamp
invariant. -/
theorem applyOp_preserves_counterInv
    (compare : String → String → Bool) (hashFn : String → String)
    (u : UserRec) (op : AccountOp) (hinv : counterInv u) :
    counterInv (applyOp compare hashFn u op) := by
  cases op with
  | login now pw =>
    rcases hr : (loginHandler compare now (some u) u.username pw).2 with _ | v
    · simp only [applyOp, hr]
      exact hinv
    · simp only [applyOp, hr]
      exact loginHandler_preserves_counterInv compare now u v u.username pw
        hinv hr
  | changePassword pw =>
    rcases hr : (changePasswordHandler compare hashFn u.username (some u)
        (some pw)).2 with _ | v
    · simp only [applyOp, hr]
      exact hinv
    · simp only [applyOp, hr]
      exact changePasswordHandler_preserves_counterInv compare hashFn
        u.username u v (some pw) hinv hr

/-- The invariant survives any sequence of public account operations. -/
theorem runOps_preserves_counterInv
    (compare : String → String → Bool) (hashFn : String → String)
    (u : UserRec) (ops : List AccountOp) (hinv : counterInv u) :
    counterInv (runOps compare hashFn u ops) := by
  induction ops generalizing u with
  | nil => exact hinv
  | cons op rest ih =>
    exact ih (applyOp compare hashFn u op)
      (applyOp_preserves_counterInv compare hashFn u op hinv)

/-- C5. Every account record reachable by public operations from the
creation state (counter 0, timestamp null) satisfies
`failedLoginAttempts == 0 ⇔ lastFailedLogin == null`. -/
theorem account_invariant_reachable
    (compare : String → String → Bool) (hashFn : String → String)
    (username hashed : String) (ops : List AccountOp) :
    counterInv (runOps compare hashFn (newUser username hashed) ops) :=
  runOps_preserves_counterInv compare hashFn (newUser username hashed) ops
    ⟨fun _ => rfl, fun _ => rfl⟩

/-- C6. A login with an existing identity, a verifying password and the
account not locked (counter below the threshold, or the lockout window
expired) issues a token carrying the account's username and persists the
record with `failedLoginAttempts = 0` and `lastFailedLogin = null`. -/
theorem successful_login_resets_and_issues_token
    (compare : String → String → Bool) (now : Nat) (user : UserRec)
    (username password : String)
    (hu : username ≠ "") (hp : password ≠ "")
    (hcmp : compare password user.password = true)
    (hopen : ¬ (user.failedLoginAttempts ≥ 3 ∧
      (now : Int) - (lastMs user.lastFailedLogin : Int) < (lockoutTime : Int))) :
    loginHandler compare now (some user) username password =
      (.token ⟨user.username, none⟩,
        some { user with failedLoginAttempts := 0, lastFailedLogin := none }) := by
  by_cases h3 : 3 ≤ user.failedLoginAttempts
  · have hw : ¬ ((now : Int) - (lastMs user.lastFailedLogin : Int) <
        (lockoutTime : Int)) :=
      fun hlt => hopen ⟨h3, hlt⟩
    simp [loginHandler, hu, hp, hcmp, h3, hw]
  · simp [loginHandler, hu, hp, hcmp, h3]

/-- Witness for C6: the fresh demo account logging in with its correct
password receives a token and keeps counter 0 and timestamp null. -/
theorem successful_login_witness :
    loginHandler cmpDemo 5 (some demoUser) "alice" "secret" =
      (.token ⟨"alice", none⟩,
        some { demoUser with failedLoginAttempts := 0, lastFailedLogin := none }) :=
  successful_login_resets_and_issues_token cmpDemo 5 demoUser "alice" "secret"
    (by decide) (by decide) (by decide) (by decide)

/-- C9. For an existing identity, the password-change route behaves as an
all-or-nothing rotation: if the new password validates against the full
history, the stored digest becomes the hash of the new password and the
previously-active digest is appended to the history (counter and
timestamp untouched); otherwise the violations are returned joined with
spaces and the record is exactly the one read. -/
theorem changePassword_rotates_or_reports
    (compare : String → String → Bool) (hashFn : String → String)
    (username : String) (user : UserRec) (password : String) :
    changePasswordHandler compare hashFn username (some user) (some password) =
      (if validatePassword compare password username user.historyPasswords = []
        then (.updated, some ⟨user.username, hashFn password,
          user.historyPasswords ++ [user.password],
          user.failedLoginAttempts, user.lastFailedLogin⟩)
        else (.policyViolation (String.intercalate " "
            (validatePassword compare password username user.historyPasswords)),
          some user)) := by
  rfl

/-- C10. Any token the login route issues carries a payload without a
role claim, so the admin gate rejects it with `Forbidden` on every
privileged route. -/
theorem issued_token_rejected_by_admin_gate
    (compare : String → String → Bool) (now : Nat)
    (stored : Option UserRec) (username password : String)
    (p : TokenPayload) (s : Option UserRec)
    (h : loginHandler compare now stored username password = (.token p, s)) :
    p.role = none ∧ checkAdminRole p = .forbidden := by
  have hrole : p.role = none := by
    unfold loginHandler at h
    split at h
    · simp at h
    · split at h
      · simp at h
      · split at h
        · simp at h
        · split at h
          · simp at h
          · dsimp only [] at h
            split at h
            all_goals (
              rw [Prod.mk.injEq] at h
              obtain ⟨h1, h2⟩ := h
              injection h1 with h1
              rw [← h1])
  refine ⟨hrole, ?_⟩
  unfold checkAdminRole
  rw [hrole]
  rfl

/-- Witness for C10: the token from the demo account's successful login
has no role claim and is rejected by the admin gate. -/
theorem issued_token_rejected_witness :
    (⟨"alice", none⟩ : TokenPayload).role = none ∧
    checkAdminRole ⟨"alice", none⟩ = .forbidden :=
  issued_token_rejected_by_admin_gate cmpDemo 5 (some demoUser) "alice"
    "secret" ⟨"alice", none⟩ (some ⟨"alice", "hash0", [], 0, none⟩)
    (by decide)

end QuizApp
